import Mathlib

/-!
Verification of the order engine of the PKT-TIMES/e-commerce repository.

The definitions below are a shallow embedding of `server/models/Order.js`:
order statuses, order items, the order record, the two `pre('save')`
hooks (order-number generation and totals recomputation), the instance
methods `canBeCancelled`, `canBeReturned`, `updateStatus`, and the
`getSalesAnalytics` aggregation.  JavaScript `Number` money values are
modelled as rationals (`ℚ`); timestamps are milliseconds since the
epoch modelled as `ℤ`; Mongo ObjectIds are modelled as `Nat`.
-/

namespace ECommerce

/-- Order status enumeration of `Order.js` (`orderSchema.status.enum`). -/
inductive OrderStatus where
  | pending
  | confirmed
  | processing
  | shipped
  | delivered
  | cancelled
  | returned
deriving DecidableEq, Repr

/-- One line item of an order (`orderItemSchema`).  `commission` is the
platform commission percentage snapshot (default 5). -/
structure OrderItem where
  product : Nat
  seller : Nat
  quantity : Nat
  price : ℚ
  commission : ℚ := 5
  status : OrderStatus := .pending
deriving DecidableEq, Repr

/-- The order record (`orderSchema`), restricted to the fields the order
engine reads or writes.  `orderNumber = ""` models the JavaScript falsy
(absent) order number checked by `if (!this.orderNumber)`. -/
structure Order where
  orderNumber : String := ""
  items : List OrderItem
  subtotal : ℚ := 0
  tax : ℚ := 0
  shipping : ℚ := 0
  discount : ℚ := 0
  total : ℚ := 0
  status : OrderStatus := .pending
  orderDate : ℤ := 0
  confirmedAt : Option ℤ := none
  shippedAt : Option ℤ := none
  deliveredAt : Option ℤ := none
deriving DecidableEq, Repr

/-- JavaScript `String.prototype.padStart(w, c)`. -/
def padStart (s : String) (w : Nat) (c : Char) : String :=
  if w ≤ s.length then s else String.mk (List.replicate (w - s.length) c) ++ s

/-- JavaScript `String.prototype.slice(-2)`: the last two characters
(the whole string when it is shorter). -/
def sliceLastTwo (s : String) : String :=
  s.drop (s.length - 2)

/-- The order number built by the first `pre('save')` hook of `Order.js`:
`"MT" + year.slice(-2) + pad2(month) + pad2(day) + pad4(count + 1)`,
where `count` is the number of orders already created on that calendar
day (`countDocuments` over that day's `createdAt` range). -/
def genOrderNumber (year month day count : Nat) : String :=
  "MT" ++ sliceLastTwo (toString year) ++ padStart (toString month) 2 '0'
       ++ padStart (toString day) 2 '0' ++ padStart (toString (count + 1)) 4 '0'

/-- First `pre('save')` hook (`Order.js:181-198`): assign an order number
when none is present, keep the existing one otherwise. -/
def orderNumberHook (o : Order) (year month day count : Nat) : Order :=
  if o.orderNumber = "" then
    { o with orderNumber := genOrderNumber year month day count }
  else o

/-- Second `pre('save')` hook (`Order.js:201-205`): recompute
`subtotal = items.reduce((sum, item) => sum + item.price * item.quantity, 0)`
and `total = subtotal + tax + shipping - discount`. -/
def calcTotalsHook (o : Order) : Order :=
  let st := o.items.foldl (fun sum i => sum + i.price * (i.quantity : ℚ)) 0
  { o with subtotal := st, total := st + o.tax + o.shipping - o.discount }

/-- Mongoose `document.save()`: runs the two `pre('save')` hooks in registration
order.  `year month day count` stand for the wall-clock date and the
day's `countDocuments` result observed by the first hook. -/
def save (o : Order) (year month day count : Nat) : Order :=
  calcTotalsHook (orderNumberHook o year month day count)

/-- Method `orderSchema.methods.canBeCancelled` (`Order.js:208-210`):
`['pending', 'confirmed'].includes(this.status)`. -/
def canBeCancelled (o : Order) : Bool :=
  match o.status with
  | .pending => true
  | .confirmed => true
  | _ => false

/-- Quantity `daysSinceDelivery` as computed inside `canBeReturned`
(`Order.js:213-214`): `(Date.now() - deliveredAt) / (1000*60*60*24)`
when `deliveredAt` is set, `0` otherwise. -/
def daysSinceDelivery (o : Order) (now : ℤ) : ℚ :=
  match o.deliveredAt with
  | some t => ((now - t : ℤ) : ℚ) / (1000 * 60 * 60 * 24)
  | none => 0

/-- Method `orderSchema.methods.canBeReturned` (`Order.js:212-216`):
`this.status === 'delivered' && daysSinceDelivery <= 30`. -/
def canBeReturned (o : Order) (now : ℤ) : Bool :=
  o.status == OrderStatus.delivered && decide (daysSinceDelivery o now ≤ 30)

/-- Method `orderSchema.methods.updateStatus` (`Order.js:218-234`): set `status`
to the requested status unconditionally, stamp `confirmedAt` /
`shippedAt` / `deliveredAt` for the corresponding targets, then
`this.save()` (which reruns the two hooks). -/
def updateStatus (o : Order) (newStatus : OrderStatus) (now : ℤ)
    (year month day count : Nat) : Order :=
  let o1 : Order := { o with status := newStatus }
  let o2 : Order :=
    match newStatus with
    | .confirmed => { o1 with confirmedAt := some now }
    | .shipped => { o1 with shippedAt := some now }
    | .delivered => { o1 with deliveredAt := some now }
    | _ => o1
  save o2 year month day count

/-- Result row of `orderSchema.statics.getSalesAnalytics`
(`Order.js:248-274`). -/
structure Analytics where
  totalOrders : Nat
  totalRevenue : ℚ
  totalCommission : ℚ
deriving DecidableEq, Repr

/-- Static `orderSchema.statics.getSalesAnalytics` (`Order.js:248-274`) over an
explicit collection of orders: `$match` on seller membership, date range
and non-cancelled/returned status, `$unwind` the items, `$match` the
seller again, then `$group` summing `price*quantity` and
`price*quantity*(commission/100)` with no rounding. -/
def getSalesAnalytics (orders : List Order) (sellerId : Nat)
    (startDate endDate : ℤ) : Analytics :=
  let matched := orders.filter (fun o =>
    o.items.any (fun i => i.seller == sellerId)
      && decide (startDate ≤ o.orderDate) && decide (o.orderDate ≤ endDate)
      && !(o.status == OrderStatus.cancelled) && !(o.status == OrderStatus.returned))
  let unwound := (matched.map Order.items).flatten.filter (fun i => i.seller == sellerId)
  { totalOrders := unwound.length
    totalRevenue := unwound.foldl (fun a i => a + i.price * (i.quantity : ℚ)) 0
    totalCommission :=
      unwound.foldl (fun a i => a + i.price * (i.quantity : ℚ) * (i.commission / 100)) 0 }

/-! Spec-side definitions.  The HTTP handlers that surface
`CancellationNotAllowed` and `ReturnWindowExpired`, the legal-transition
table and the per-item commission rounding rule are described by the
specification but are not present under the repository's order model;
they are modelled here from the spec's words, clearly marked, and
compared with the code-derived definitions above. -/

/-- Modelled from the spec: the error taxonomy of §7 (`InvalidTransition`,
`CancellationNotAllowed`, `ReturnWindowExpired`, `OrderNumberExhausted`,
plus the non-delivered return rejection of §4.4). -/
inductive OrderError where
  | invalidTransition (cur req : OrderStatus)
  | cancellationNotAllowed
  | returnWindowExpired
  | returnNotEligible
  | orderNumberExhausted
deriving DecidableEq, Repr

/-- Modelled from the spec: the legal-transition table of §4.2
(`pending → confirmed → processing → shipped → delivered`, with
`pending/confirmed → cancelled` and `delivered → returned` as
side-exits). -/
def legalTransition (cur req : OrderStatus) : Bool :=
  match cur, req with
  | .pending, .confirmed => true
  | .confirmed, .processing => true
  | .processing, .shipped => true
  | .shipped, .delivered => true
  | .pending, .cancelled => true
  | .confirmed, .cancelled => true
  | .delivered, .returned => true
  | _, _ => false

/-- Modelled from the spec: the cancellation handler of §4.4, which is
not under the repository's order model.  It consults the code's
`canBeCancelled` and fails with `CancellationNotAllowed` from any other
status, leaving the order unchanged. -/
def cancelOrder (o : Order) : Except OrderError Order :=
  if canBeCancelled o then
    Except.ok { o with status := OrderStatus.cancelled }
  else
    Except.error OrderError.cancellationNotAllowed

/-- Modelled from the spec: the return-request handler of §4.4, which is
not under the repository's order model.  It consults the code's
delivery test and 30-day window and fails with `ReturnWindowExpired`
when the window has lapsed, leaving the order unchanged. -/
def requestReturn (o : Order) (now : ℤ) : Except OrderError Order :=
  if o.status = OrderStatus.delivered then
    if daysSinceDelivery o now ≤ 30 then Except.ok o
    else Except.error OrderError.returnWindowExpired
  else Except.error OrderError.returnNotEligible

/-- Modelled from the spec (§4.3): rounding a money value to the
currency's minor unit (cents). -/
def roundToMinorUnit (x : ℚ) : ℚ :=
  ((round (x * 100) : ℤ) : ℚ) / 100

/-- Modelled from the spec (§4.3): a seller group's commission with each
item's commission rounded independently to the minor unit before
summing, the aggregate never rounded. -/
def specGroupCommission (items : List OrderItem) : ℚ :=
  (items.map (fun i => roundToMinorUnit (i.price * (i.quantity : ℚ) * (i.commission / 100)))).sum

/-! Interleaving model of order-number generation.  Each `save` first
awaits `countDocuments` over the day's orders (a read of the day count),
then the insert makes the new order visible (incrementing the count).
Two concurrent savers A and B are modelled as a small state machine
driven by a schedule of read/write events. -/

/-- An event of the two-saver interleaving: a `countDocuments` read or a
document insert by client A or B. -/
inductive GenEvent where
  | readA
  | readB
  | writeA
  | writeB
deriving DecidableEq, Repr

/-- Phase of one saving client: not yet counted, holding the count it
read, or finished with its generated order number. -/
inductive ClientPhase where
  | start
  | counted (n : Nat)
  | done (num : String)
deriving DecidableEq, Repr

/-- Shared state of the interleaving: the day's order count visible in
the store, and the two clients' phases. -/
structure GenState where
  dayCount : Nat
  a : ClientPhase
  b : ClientPhase
deriving DecidableEq, Repr

/-- One interleaving step: a read observes the current day count; a write
generates the number from the count the client read (as the hook of
`Order.js:181-198` does) and makes the insert visible. -/
def genStep (year month day : Nat) (s : GenState) (e : GenEvent) : GenState :=
  match e with
  | .readA =>
    match s.a with
    | .start => { s with a := .counted s.dayCount }
    | _ => s
  | .readB =>
    match s.b with
    | .start => { s with b := .counted s.dayCount }
    | _ => s
  | .writeA =>
    match s.a with
    | .counted n =>
      { s with a := .done (genOrderNumber year month day n), dayCount := s.dayCount + 1 }
    | _ => s
  | .writeB =>
    match s.b with
    | .counted n =>
      { s with b := .done (genOrderNumber year month day n), dayCount := s.dayCount + 1 }
    | _ => s

/-- Run a schedule of interleaved events. -/
def genRun (year month day : Nat) (s : GenState) (es : List GenEvent) : GenState :=
  es.foldl (genStep year month day) s

/-! Concrete orders used to instantiate the theorems below. -/

/-- An empty delivered order. -/
def deliveredOrder : Order := { items := [], status := .delivered }

/-- An empty pending order with a discount of 5 and no other charges. -/
def discountOnlyOrder : Order := { items := [], discount := 5 }

/-- A delivered order whose delivery timestamp lies 31 days (in
milliseconds) before the probe time `2678400000` used below. -/
def lateDeliveredOrder : Order :=
  { items := [], status := .delivered, deliveredAt := some 0 }

/-- An empty shipped order. -/
def shippedOrder : Order := { items := [], status := .shipped }

/-- An empty fresh order with no order number assigned yet. -/
def pendingEmptyOrder : Order := { items := [] }

/-- A confirmed order that already carries a `confirmedAt` stamp of 0. -/
def preConfirmedOrder : Order :=
  { items := [], status := .confirmed, confirmedAt := some 0 }

/-- One item of seller 1: price 1.30, quantity 1, commission 3 percent,
whose exact commission 0.039 is not a whole number of cents. -/
def c8Item : OrderItem :=
  { product := 0, seller := 1, quantity := 1, price := 13 / 10, commission := 3 }

/-- A delivered order holding only `c8Item`. -/
def c8Order : Order := { items := [c8Item], status := .delivered, orderDate := 0 }

/-! Helper lemmas. -/

/-- A left fold accumulating `+ f i` equals the initial value plus the
sum of the mapped list. -/
theorem foldl_add_eq_add_sum (f : OrderItem → ℚ) (l : List OrderItem) (init : ℚ) :
    l.foldl (fun s i => s + f i) init = init + (l.map f).sum := by
  induction l generalizing init with
  | nil => simp
  | cons h t ih => simp only [List.foldl_cons, List.map_cons, List.sum_cons, ih]; ring

/-- The order-number hook changes no field other than `orderNumber`. -/
theorem orderNumberHook_preserves (o : Order) (y m d c : Nat) :
    (orderNumberHook o y m d c).items = o.items ∧
    (orderNumberHook o y m d c).tax = o.tax ∧
    (orderNumberHook o y m d c).shipping = o.shipping ∧
    (orderNumberHook o y m d c).discount = o.discount ∧
    (orderNumberHook o y m d c).status = o.status ∧
    (orderNumberHook o y m d c).confirmedAt = o.confirmedAt ∧
    (orderNumberHook o y m d c).shippedAt = o.shippedAt ∧
    (orderNumberHook o y m d c).deliveredAt = o.deliveredAt := by
  unfold orderNumberHook
  split <;> simp

/-- Field-level description of `save`: the totals hook rewrites
`subtotal` and `total` from the items, every other pricing and status
field is carried through unchanged. -/
theorem save_spec (o : Order) (y m d c : Nat) :
    (save o y m d c).items = o.items ∧
    (save o y m d c).tax = o.tax ∧
    (save o y m d c).shipping = o.shipping ∧
    (save o y m d c).discount = o.discount ∧
    (save o y m d c).status = o.status ∧
    (save o y m d c).confirmedAt = o.confirmedAt ∧
    (save o y m d c).shippedAt = o.shippedAt ∧
    (save o y m d c).deliveredAt = o.deliveredAt ∧
    (save o y m d c).subtotal
      = (o.items.map (fun i => i.price * (i.quantity : ℚ))).sum ∧
    (save o y m d c).total
      = (o.items.map (fun i => i.price * (i.quantity : ℚ))).sum
        + o.tax + o.shipping - o.discount := by
  obtain ⟨h1, h2, h3, h4, h5, h6, h7, h8⟩ := orderNumberHook_preserves o y m d c
  unfold save calcTotalsHook
  simp [h1, h2, h3, h4, h5, h6, h7, h8, foldl_add_eq_add_sum]

/-- Saving carries `confirmedAt` through unchanged. -/
theorem save_confirmedAt (o : Order) (y m d c : Nat) :
    (save o y m d c).confirmedAt = o.confirmedAt := by
  obtain ⟨-, -, -, -, -, h, -, -, -, -⟩ := save_spec o y m d c
  exact h

/-- Saving carries `shippedAt` through unchanged. -/
theorem save_shippedAt (o : Order) (y m d c : Nat) :
    (save o y m d c).shippedAt = o.shippedAt := by
  obtain ⟨-, -, -, -, -, -, h, -, -, -⟩ := save_spec o y m d c
  exact h

/-- Saving carries `deliveredAt` through unchanged. -/
theorem save_deliveredAt (o : Order) (y m d c : Nat) :
    (save o y m d c).deliveredAt = o.deliveredAt := by
  obtain ⟨-, -, -, -, -, -, -, h, -, -⟩ := save_spec o y m d c
  exact h

/-- Padding via `padStart` pads to exactly the requested width (or keeps a longer
string). -/
theorem padStart_length (s : String) (w : Nat) (c : Char) :
    (padStart s w c).length = max w s.length := by
  unfold padStart
  split
  · next h => rw [Nat.max_eq_right h]
  · next h =>
    rw [String.length_append]
    have hrep : (String.mk (List.replicate (w - s.length) c)).length = w - s.length := by
      rw [show (String.mk (List.replicate (w - s.length) c)).length
            = (List.replicate (w - s.length) c).length from rfl, List.length_replicate]
    rw [hrep]
    omega

/-- Taking the last two characters of a string of length at least two
yields a string of length two. -/
theorem sliceLastTwo_length (s : String) (h : 2 ≤ s.length) :
    (sliceLastTwo s).length = 2 := by
  rw [sliceLastTwo, String.drop_eq]
  rw [show (String.mk (s.data.drop (s.length - 2))).length
        = (s.data.drop (s.length - 2)).length from rfl, List.length_drop]
  have hs : s.length = s.data.length := rfl
  omega

/-- Function `Nat.toDigitsCore` with positive fuel emits at least one digit. -/
theorem one_le_toDigitsCore_length (b f n : Nat) :
    1 ≤ (Nat.toDigitsCore b (f + 1) n []).length := by
  simp only [Nat.toDigitsCore]
  split
  · simp
  · rw [Nat.toDigitsCore_lens_eq]
    omega

/-- The decimal representation of a number at least 10 has at least two
digits. -/
theorem two_le_repr_length (y : Nat) (hy : 10 ≤ y) : 2 ≤ (Nat.repr y).length := by
  obtain ⟨f, rfl⟩ : ∃ f, y = f + 1 := ⟨y - 1, by omega⟩
  rw [Nat.repr, Nat.toDigits, List.length_asString]
  simp only [Nat.toDigitsCore]
  split
  · next hdiv =>
    rw [Nat.div_eq_zero_iff (by norm_num)] at hdiv
    omega
  · split
    · simp
    · rw [Nat.toDigitsCore_lens_eq, Nat.toDigitsCore_lens_eq]
      omega

/-! Claim theorems. -/

/-- C1: for every order saved through the order model, after the
recompute hook runs the stored subtotal equals the sum over all items of
`price * quantity`, and the stored total equals
`subtotal + tax + shipping - discount`. -/
theorem save_totals (o : Order) (y m d c : Nat) :
    (save o y m d c).subtotal
      = ((save o y m d c).items.map (fun i => i.price * (i.quantity : ℚ))).sum ∧
    (save o y m d c).total
      = (save o y m d c).subtotal + (save o y m d c).tax
        + (save o y m d c).shipping - (save o y m d c).discount := by
  obtain ⟨hitems, htax, hship, hdisc, -, -, -, -, hsub, htot⟩ := save_spec o y m d c
  exact ⟨by rw [hitems, hsub], by rw [htot, hsub, htax, hship, hdisc]⟩

/-- C2 counterexample: `delivered → processing` is not in the legal
transition table, yet `updateStatus` applies it without error and
mutates the order's status. -/
theorem updateStatus_illegal_transition_cex :
    legalTransition OrderStatus.delivered OrderStatus.processing = false ∧
    (updateStatus deliveredOrder OrderStatus.processing 0 25 10 11 0).status
      = OrderStatus.processing ∧
    deliveredOrder.status = OrderStatus.delivered := by
  refine ⟨rfl, ?_, rfl⟩
  decide

/-- C2 amended: `updateStatus` performs no transition validation: for
every order and every requested status it sets the order's status to the
requested status and never fails, whether or not the transition is in
the legal-transition table. -/
theorem updateStatus_sets_status (o : Order) (ns : OrderStatus) (now : ℤ)
    (y m d c : Nat) :
    (updateStatus o ns now y m d c).status = ns := by
  unfold updateStatus save calcTotalsHook orderNumberHook
  cases ns <;> (dsimp only []; split <;> rfl)

/-- C3 counterexample: an order whose discount (5) exceeds
`subtotal + tax + shipping` (0) saves with a strictly negative total:
the recompute hook applies no clamp at zero. -/
theorem save_total_negative_cex :
    (save discountOnlyOrder 25 10 11 0).total = -5 ∧
    (save discountOnlyOrder 25 10 11 0).total < 0 := by
  obtain ⟨-, -, -, -, -, -, -, -, -, htot⟩ := save_spec discountOnlyOrder 25 10 11 0
  rw [htot]
  norm_num [discountOnlyOrder]

/-- C3 amended: after every save the total equals exactly
`subtotal + tax + shipping - discount` with no lower clamp, so whenever
the discount exceeds `subtotal + tax + shipping` the resulting total is
strictly negative. -/
theorem save_total_unclamped (o : Order) (y m d c : Nat) :
    (save o y m d c).total
      = (save o y m d c).subtotal + o.tax + o.shipping - o.discount ∧
    ((save o y m d c).subtotal + o.tax + o.shipping < o.discount →
      (save o y m d c).total < 0) := by
  obtain ⟨-, -, -, -, -, -, -, -, hsub, htot⟩ := save_spec o y m d c
  refine ⟨by rw [htot, hsub], fun hlt => ?_⟩
  rw [htot, ← hsub] at *
  linarith

/-- C4: a return is eligible exactly when the order is `delivered` and
the elapsed continuous duration since `deliveredAt` is at most 30 days
(milliseconds divided by 86400000); beyond that window the return
request fails with `ReturnWindowExpired`. -/
theorem canBeReturned_iff_window (o : Order) (now t : ℤ) (h : o.deliveredAt = some t) :
    (canBeReturned o now = true ↔
      (o.status = OrderStatus.delivered ∧ ((now - t : ℤ) : ℚ) / 86400000 ≤ 30)) ∧
    (o.status = OrderStatus.delivered → 30 < ((now - t : ℤ) : ℚ) / 86400000 →
      requestReturn o now = Except.error OrderError.returnWindowExpired) := by
  have hd : daysSinceDelivery o now = ((now - t : ℤ) : ℚ) / 86400000 := by
    simp [daysSinceDelivery, h]
    norm_num
  constructor
  · simp [canBeReturned, hd]
  · intro hs hgt
    rw [requestReturn, if_pos hs, if_neg (by rw [hd]; exact not_le.mpr hgt)]

/-- C4 witness: a delivered order whose `deliveredAt` lies exactly 31
days before the probe time is rejected with `ReturnWindowExpired`. -/
theorem canBeReturned_iff_window_witness :
    lateDeliveredOrder.deliveredAt = some 0 ∧
    lateDeliveredOrder.status = OrderStatus.delivered ∧
    ((2678400000 - 0 : ℤ) : ℚ) / 86400000 = 31 ∧
    requestReturn lateDeliveredOrder 2678400000
      = Except.error OrderError.returnWindowExpired :=
  ⟨rfl, rfl, by norm_num,
    (canBeReturned_iff_window lateDeliveredOrder 2678400000 0 rfl).2 rfl (by norm_num)⟩

/-- C5: `canBeCancelled` is true exactly when the status is `pending` or
`confirmed`, and from any other status the cancellation handler fails
with `CancellationNotAllowed`, returning no modified order. -/
theorem canBeCancelled_iff (o : Order) :
    (canBeCancelled o = true ↔
      (o.status = OrderStatus.pending ∨ o.status = OrderStatus.confirmed)) ∧
    (canBeCancelled o = false →
      cancelOrder o = Except.error OrderError.cancellationNotAllowed) := by
  constructor
  · cases hs : o.status <;> simp [canBeCancelled, hs]
  · intro hf
    simp [cancelOrder, hf]

/-- C5 witness: a shipped order cannot be cancelled; the cancellation
handler rejects it with `CancellationNotAllowed` while its stored status
stays `shipped`. -/
theorem canBeCancelled_iff_witness :
    canBeCancelled shippedOrder = false ∧
    shippedOrder.status = OrderStatus.shipped ∧
    cancelOrder shippedOrder = Except.error OrderError.cancellationNotAllowed :=
  ⟨rfl, rfl, (canBeCancelled_iff shippedOrder).2 rfl⟩

/-- C10: a `delivered` order with no `deliveredAt` timestamp is treated
as zero elapsed days since delivery, so `canBeReturned` returns true. -/
theorem canBeReturned_no_deliveredAt (o : Order) (now : ℤ)
    (h1 : o.status = OrderStatus.delivered) (h2 : o.deliveredAt = none) :
    canBeReturned o now = true := by
  simp [canBeReturned, daysSinceDelivery, h1, h2]

/-- C10 witness: the empty delivered order, which has no `deliveredAt`,
is reported returnable at an arbitrary probe time. -/
theorem canBeReturned_no_deliveredAt_witness :
    deliveredOrder.status = OrderStatus.delivered ∧
    deliveredOrder.deliveredAt = none ∧
    canBeReturned deliveredOrder 999999999999 = true :=
  ⟨rfl, rfl, canBeReturned_no_deliveredAt deliveredOrder 999999999999 rfl rfl⟩

/-- C3 witness: the amended theorem applied at the concrete
discount-only order, whose discount 5 exceeds its zero subtotal, tax and
shipping, yielding a negative total. -/
theorem save_total_unclamped_witness :
    (save discountOnlyOrder 25 10 11 0).subtotal + discountOnlyOrder.tax
        + discountOnlyOrder.shipping < discountOnlyOrder.discount ∧
    (save discountOnlyOrder 25 10 11 0).total < 0 :=
  have hlt : (save discountOnlyOrder 25 10 11 0).subtotal + discountOnlyOrder.tax
      + discountOnlyOrder.shipping < discountOnlyOrder.discount := by
    obtain ⟨-, -, -, -, -, -, -, -, hsub, -⟩ := save_spec discountOnlyOrder 25 10 11 0
    rw [hsub]
    norm_num [discountOnlyOrder]
  ⟨hlt, (save_total_unclamped discountOnlyOrder 25 10 11 0).2 hlt⟩

/-- C6: an order saved without an order number receives
`"MT" + year.slice(-2) + pad2(month) + pad2(day) + pad4(count + 1)` —
for a real date (year at least 10, month and day at most two digits) and
a day count below 9999 this is the platform prefix, two-digit year,
two-digit month, two-digit day and a 4-digit zero-padded sequence equal
to one plus the day's order count — while an order that already has an
order number keeps it unchanged on every later save. -/
theorem orderNumber_generation (o : Order) (y m d c : Nat)
    (h : o.orderNumber = "") (hy : 10 ≤ y) (hm : m ≤ 99) (hd : d ≤ 99)
    (hc : c + 1 ≤ 9999) :
    (save o y m d c).orderNumber
      = "MT" ++ sliceLastTwo (toString y) ++ padStart (toString m) 2 '0'
          ++ padStart (toString d) 2 '0' ++ padStart (toString (c + 1)) 4 '0' ∧
    (sliceLastTwo (toString y)).length = 2 ∧
    (padStart (toString m) 2 '0').length = 2 ∧
    (padStart (toString d) 2 '0').length = 2 ∧
    (padStart (toString (c + 1)) 4 '0').length = 4 ∧
    ∀ (o2 : Order) (y2 m2 d2 c2 : Nat), o2.orderNumber ≠ "" →
      (save o2 y2 m2 d2 c2).orderNumber = o2.orderNumber := by
  refine ⟨?_, ?_, ?_, ?_, ?_, ?_⟩
  · simp [save, calcTotalsHook, orderNumberHook, h, genOrderNumber]
  · exact sliceLastTwo_length _ (two_le_repr_length y hy)
  · rw [padStart_length]
    exact Nat.max_eq_left (Nat.repr_length m 2 (by norm_num) (by omega))
  · rw [padStart_length]
    exact Nat.max_eq_left (Nat.repr_length d 2 (by norm_num) (by omega))
  · rw [padStart_length]
    exact Nat.max_eq_left (Nat.repr_length (c + 1) 4 (by norm_num) (by omega))
  · intro o2 y2 m2 d2 c2 h2
    simp [save, calcTotalsHook, orderNumberHook, h2]

/-- C6 witness: the fresh empty order saved on 2025-10-11 with a day
count of 0 receives the generated number, which evaluates to
`MT2510110001`. -/
theorem orderNumber_generation_witness :
    pendingEmptyOrder.orderNumber = "" ∧
    (save pendingEmptyOrder 2025 10 11 0).orderNumber
      = "MT" ++ sliceLastTwo (toString 2025) ++ padStart (toString 10) 2 '0'
          ++ padStart (toString 11) 2 '0' ++ padStart (toString (0 + 1)) 4 '0' ∧
    "MT" ++ sliceLastTwo (toString 2025) ++ padStart (toString 10) 2 '0'
          ++ padStart (toString 11) 2 '0' ++ padStart (toString (0 + 1)) 4 '0'
      = "MT2510110001" :=
  ⟨rfl,
    (orderNumber_generation pendingEmptyOrder 2025 10 11 0 rfl (by norm_num)
      (by norm_num) (by norm_num) (by norm_num)).1,
    by decide⟩

/-- C7 counterexample: an order whose `confirmedAt` is already set to 0
has it overwritten to 5 by a repeated transition to `confirmed`, so the
timestamp is not set exactly once and not protected from overwriting. -/
theorem updateStatus_overwrites_timestamp_cex :
    preConfirmedOrder.status = OrderStatus.confirmed ∧
    preConfirmedOrder.confirmedAt = some 0 ∧
    (updateStatus preConfirmedOrder OrderStatus.confirmed 5 25 10 11 0).confirmedAt
      = some 5 := by
  refine ⟨rfl, rfl, ?_⟩
  simp [updateStatus, save_confirmedAt]

/-- C7 amended: every invocation of `updateStatus` with target
`confirmed`, `shipped` or `delivered` stamps the corresponding timestamp
with the current time — overwriting any previously stored value — while
transitions to other targets leave each timestamp unchanged; no
timestamp is ever cleared by `updateStatus`. -/
theorem updateStatus_timestamps (o : Order) (now : ℤ) (y m d c : Nat) :
    (updateStatus o OrderStatus.confirmed now y m d c).confirmedAt = some now ∧
    (updateStatus o OrderStatus.shipped now y m d c).shippedAt = some now ∧
    (updateStatus o OrderStatus.delivered now y m d c).deliveredAt = some now ∧
    (∀ ns, ns ≠ OrderStatus.confirmed →
      (updateStatus o ns now y m d c).confirmedAt = o.confirmedAt) ∧
    (∀ ns, ns ≠ OrderStatus.shipped →
      (updateStatus o ns now y m d c).shippedAt = o.shippedAt) ∧
    (∀ ns, ns ≠ OrderStatus.delivered →
      (updateStatus o ns now y m d c).deliveredAt = o.deliveredAt) := by
  refine ⟨?_, ?_, ?_, ?_, ?_, ?_⟩
  · simp [updateStatus, save_confirmedAt]
  · simp [updateStatus, save_shippedAt]
  · simp [updateStatus, save_deliveredAt]
  · intro ns hns
    cases ns <;> simp_all [updateStatus, save_confirmedAt]
  · intro ns hns
    cases ns <;> simp_all [updateStatus, save_shippedAt]
  · intro ns hns
    cases ns <;> simp_all [updateStatus, save_deliveredAt]

/-- C7 witness: the amended theorem at the pre-confirmed order: a second
`confirmed` transition rewrites `confirmedAt` to the new time, while a
`processing` transition leaves it at its stored value. -/
theorem updateStatus_timestamps_witness :
    (updateStatus preConfirmedOrder OrderStatus.confirmed 5 25 10 11 0).confirmedAt
      = some 5 ∧
    (updateStatus preConfirmedOrder OrderStatus.processing 5 25 10 11 0).confirmedAt
      = preConfirmedOrder.confirmedAt :=
  ⟨(updateStatus_timestamps preConfirmedOrder 5 25 10 11 0).1,
   (updateStatus_timestamps preConfirmedOrder 5 25 10 11 0).2.2.2.1
     OrderStatus.processing (by decide)⟩

/-- C8 counterexample: for the single-item group of seller 1 with price
1.30, quantity 1 and 3 percent commission, the analytics pipeline
reports the raw commission 0.039, which differs from the value 0.04
obtained by rounding the item's commission to the minor unit before
summing as the claim requires. -/
theorem analytics_commission_unrounded_cex :
    (getSalesAnalytics [c8Order] 1 (-1) 1).totalCommission = 39 / 1000 ∧
    specGroupCommission c8Order.items = 4 / 100 ∧
    (39 : ℚ) / 1000 ≠ 4 / 100 := by
  refine ⟨?_, ?_, by norm_num⟩
  · simp [getSalesAnalytics, c8Order, c8Item]
    norm_num
  · simp [specGroupCommission, roundToMinorUnit, c8Order, c8Item, round_eq]
    norm_num

/-- C8 amended: the commission the analytics pipeline computes for a
seller's group of items is the plain sum over those items of
`price * quantity * commissionPercent / 100`, with no rounding applied
to the items or to the aggregate. -/
theorem analytics_commission_formula (orders : List Order) (sellerId : Nat)
    (sd ed : ℤ) :
    (getSalesAnalytics orders sellerId sd ed).totalCommission
      = ((((orders.filter (fun o =>
            o.items.any (fun i => i.seller == sellerId)
              && decide (sd ≤ o.orderDate) && decide (o.orderDate ≤ ed)
              && !(o.status == OrderStatus.cancelled)
              && !(o.status == OrderStatus.returned))).map Order.items).flatten.filter
            (fun i => i.seller == sellerId)).map
          (fun i => i.price * (i.quantity : ℚ) * (i.commission / 100))).sum := by
  unfold getSalesAnalytics
  dsimp only
  rw [foldl_add_eq_add_sum (fun i => i.price * (i.quantity : ℚ) * (i.commission / 100))]
  rw [zero_add]

/-- C9 counterexample: in the interleaving where both savers run their
`countDocuments` before either insert, both finish with the identical
order number `MT2510110001` — concurrent same-day generations are not
guaranteed distinct, and no retry or `OrderNumberExhausted` path exists
in the hook. -/
theorem concurrent_orderNumbers_collide_cex :
    (genRun 25 10 11 ⟨0, .start, .start⟩
        [.readA, .readB, .writeA, .writeB]).a = ClientPhase.done "MT2510110001" ∧
    (genRun 25 10 11 ⟨0, .start, .start⟩
        [.readA, .readB, .writeA, .writeB]).b = ClientPhase.done "MT2510110001" := by
  constructor <;> rfl

/-- C9 amended: whenever the two savers' `countDocuments` reads both
complete before either insert, the two generated order numbers coincide
(both equal the number derived from the shared day count); the hook has
no retry loop and no `OrderNumberExhausted` failure path. -/
theorem concurrent_orderNumbers_collide (n y m d : Nat) :
    (genRun y m d ⟨n, .start, .start⟩
        [.readA, .readB, .writeA, .writeB]).a
      = ClientPhase.done (genOrderNumber y m d n) ∧
    (genRun y m d ⟨n, .start, .start⟩
        [.readA, .readB, .writeA, .writeB]).b
      = ClientPhase.done (genOrderNumber y m d n) := by
  constructor <;> rfl

end ECommerce
